import Mathlib

/-!
Verification of the client-side bookmark Reconciler of the Smart-Bookmark-App
repository.  The Reconciler is the `bookmarks` React state held by
`BookmarkList.tsx` together with the three branches of the `postgres_changes`
handler (INSERT / UPDATE / DELETE), the `fetchBookmarks` bootstrap, the
subscription lifecycle of the mounting effect, and the three mutation entry
points (`AddBookmarkForm.handleSubmit`, `BookmarkItem.handleSaveEdit`,
`BookmarkItem.handleDelete`).

External effects (the Supabase query, the URL constructor used for validation,
the database insert/update/delete results, the authenticated user) are passed
in as parameters; everything else is translated directly from the source.
-/

/-- The `Bookmark` record of `BookmarkList.tsx` (interface Bookmark).
`created_at` is an ISO timestamp string in the source, ordered
chronologically by the database; it is modelled as a `Nat` timestamp so that
the ordering used by the bootstrap query is the numeric order. -/
structure Bookmark where
  id : String
  user_id : String
  title : String
  url : String
  created_at : Nat
deriving DecidableEq

/-- INSERT branch of the `postgres_changes` handler
(`BookmarkList.tsx` lines 74-81): if a record with the same `id` is already
present the previous state is returned unchanged, otherwise the new record is
prepended to the front. -/
def applyAdded (r : Bookmark) (prev : List Bookmark) : List Bookmark :=
  if prev.any (fun b => b.id == r.id) then prev else r :: prev

/-- DELETE branch of the `postgres_changes` handler
(`BookmarkList.tsx` lines 82-84): keeps exactly the records whose `id`
differs from the deleted row's `id`. -/
def applyRemoved (oldId : String) (prev : List Bookmark) : List Bookmark :=
  prev.filter (fun b => b.id != oldId)

/-- UPDATE branch of the `postgres_changes` handler
(`BookmarkList.tsx` lines 85-90): maps over the held sequence, replacing the
record whose `id` matches the payload's `id` with the payload and leaving all
other records as they are. -/
def applyReplaced (r : Bookmark) (prev : List Bookmark) : List Bookmark :=
  prev.map (fun b => if b.id == r.id then r else b)

/-- One change-feed event, as dispatched on `payload.eventType`. -/
inductive FeedEvent where
  | added (r : Bookmark)
  | replaced (r : Bookmark)
  | removed (oldId : String)
deriving DecidableEq

/-- Dispatch of the `postgres_changes` handler on the event type. -/
def applyEvent (prev : List Bookmark) : FeedEvent → List Bookmark
  | .added r => applyAdded r prev
  | .replaced r => applyReplaced r prev
  | .removed oldId => applyRemoved oldId prev

/-- A whole delivered event sequence applied in delivery order (the feed's
callback model is single-threaded, each event fully applied before the next). -/
def applyEvents (prev : List Bookmark) (es : List FeedEvent) : List Bookmark :=
  es.foldl applyEvent prev

/-- The ids held in a snapshot. -/
def snapshotIds (s : List Bookmark) : List String :=
  s.map (fun b => b.id)

-- Concrete records used by witnesses and counterexamples.

def bk1 : Bookmark := { id := "1", user_id := "u1", title := "A", url := "https://a.example", created_at := 20 }

def bk2 : Bookmark := { id := "2", user_id := "u1", title := "B", url := "https://b.example", created_at := 10 }

def bk3 : Bookmark := { id := "3", user_id := "u1", title := "C", url := "https://c.example", created_at := 5 }

def bk1v2 : Bookmark := { id := "1", user_id := "u1", title := "A2", url := "https://a2.example", created_at := 99 }

-- Helper lemmas about the three handler branches.

theorem applyAdded_of_present (r : Bookmark) (s : List Bookmark)
    (h : s.any (fun b => b.id == r.id) = true) : applyAdded r s = s := by
  simp [applyAdded, h]

theorem applyAdded_of_absent (r : Bookmark) (s : List Bookmark)
    (h : s.any (fun b => b.id == r.id) = false) : applyAdded r s = r :: s := by
  simp only [applyAdded, h]
  simp

theorem snapshotIds_applyReplaced (r : Bookmark) (s : List Bookmark) :
    snapshotIds (applyReplaced r s) = snapshotIds s := by
  simp only [snapshotIds, applyReplaced, List.map_map]
  refine List.map_congr_left ?_
  intro b _
  simp only [Function.comp_apply]
  by_cases h : b.id = r.id
  · simp [h]
  · simp [h]

theorem applyRemoved_sublist (oldId : String) (s : List Bookmark) :
    (applyRemoved oldId s).Sublist s :=
  List.filter_sublist s

theorem nodup_applyEvent (prev : List Bookmark) (e : FeedEvent)
    (h : (snapshotIds prev).Nodup) : (snapshotIds (applyEvent prev e)).Nodup := by
  cases e with
  | added r =>
    rcases ha : prev.any (fun b => b.id == r.id) with _ | _
    · rw [applyEvent, applyAdded_of_absent r prev ha]
      simp only [snapshotIds, List.map_cons]
      refine List.Nodup.cons ?_ h
      intro hmem
      simp only [List.mem_map] at hmem
      obtain ⟨b, hb, hid⟩ := hmem
      simp only [List.any_eq_false, beq_iff_eq] at ha
      exact ha b hb hid
    · rw [applyEvent, applyAdded_of_present r prev ha]
      exact h
  | replaced r =>
    rw [applyEvent, snapshotIds_applyReplaced]
    exact h
  | removed oldId =>
    exact List.Nodup.sublist ((applyRemoved_sublist oldId prev).map _) h

/-- C1: for every sequence of applyAdded/applyReplaced/applyRemoved events
applied to a state whose records have pairwise-distinct ids, every record in
the resulting snapshot has a unique id. -/
theorem uniqueIds_preserved (s : List Bookmark) (es : List FeedEvent)
    (h : (snapshotIds s).Nodup) : (snapshotIds (applyEvents s es)).Nodup := by
  induction es generalizing s with
  | nil => exact h
  | cons e es ih =>
    rw [applyEvents, List.foldl_cons]
    exact ih (applyEvent s e) (nodup_applyEvent s e h)

theorem uniqueIds_preserved_witness :
    (snapshotIds [bk1, bk2]).Nodup ∧
      (snapshotIds (applyEvents [bk1, bk2]
        [FeedEvent.added bk3, FeedEvent.replaced bk1v2, FeedEvent.removed "2"])).Nodup :=
  ⟨by decide, uniqueIds_preserved [bk1, bk2]
    [FeedEvent.added bk3, FeedEvent.replaced bk1v2, FeedEvent.removed "2"] (by decide)⟩

/-- C5: applyAdded is idempotent — applying it twice with the same record
yields the same snapshot as applying it once, and applying it when a record
with the same id is already present is a no-op. -/
theorem applyAdded_idempotent (r : Bookmark) (s : List Bookmark) :
    applyAdded r (applyAdded r s) = applyAdded r s ∧
      (s.any (fun b => b.id == r.id) = true → applyAdded r s = s) := by
  constructor
  · rcases ha : s.any (fun b => b.id == r.id) with _ | _
    · rw [applyAdded_of_absent r s ha]
      refine applyAdded_of_present r (r :: s) ?_
      simp
    · rw [applyAdded_of_present r s ha, applyAdded_of_present r s ha]
  · exact applyAdded_of_present r s

theorem applyAdded_idempotent_witness :
    applyAdded bk3 (applyAdded bk3 [bk1, bk2]) = applyAdded bk3 [bk1, bk2] ∧
      applyAdded bk1v2 [bk1, bk2] = [bk1, bk2] :=
  ⟨(applyAdded_idempotent bk3 [bk1, bk2]).1,
    (applyAdded_idempotent bk1v2 [bk1, bk2]).2 (by decide)⟩

/-- C6: for every state not containing the record's id, applyAdded prepends
the record to the front of the held sequence, leaving the existing records
and their relative order unchanged, regardless of created_at. -/
theorem applyAdded_prepends (r : Bookmark) (s : List Bookmark)
    (h : s.any (fun b => b.id == r.id) = false) : applyAdded r s = r :: s :=
  applyAdded_of_absent r s h

theorem applyAdded_prepends_witness :
    ([bk1, bk2].any (fun b => b.id == bk3.id) = false) ∧
      applyAdded bk3 [bk1, bk2] = [bk3, bk1, bk2] ∧
      snapshotIds (applyAdded bk3 [bk1, bk2]) = ["3", "1", "2"] ∧
      bk3.created_at < bk2.created_at :=
  ⟨by decide, applyAdded_prepends bk3 [bk1, bk2] (by decide), by decide, by decide⟩

/-- C10: when a record whose id already occurs in the state arrives via
applyAdded, the snapshot is left exactly unchanged even when the incoming
payload's other fields (title, url, created_at) differ from the held
record's — the payload is discarded entirely. -/
theorem applyAdded_discards_duplicate_payload (r : Bookmark) (s : List Bookmark)
    (h : ∃ b ∈ s, b.id = r.id) : applyAdded r s = s := by
  refine applyAdded_of_present r s ?_
  obtain ⟨b, hb, hid⟩ := h
  simp only [List.any_eq_true, beq_iff_eq]
  exact ⟨b, hb, hid⟩

theorem applyAdded_discards_duplicate_payload_witness :
    (∃ b ∈ [bk1, bk2], b.id = bk1v2.id) ∧
      applyAdded bk1v2 [bk1, bk2] = [bk1, bk2] ∧
      bk1v2.title ≠ bk1.title ∧ bk1v2.url ≠ bk1.url ∧ bk1v2.created_at ≠ bk1.created_at :=
  ⟨by decide, applyAdded_discards_duplicate_payload bk1v2 [bk1, bk2] (by decide),
    by decide, by decide, by decide⟩

/-- C7: applyReplaced with a present id replaces the matching record in
place — the length is preserved and every position holds the original record
except the matching one, which holds the payload; with the id absent the
snapshot is unchanged (silent no-op). -/
theorem applyReplaced_spec (r : Bookmark) (s : List Bookmark) :
    (applyReplaced r s).length = s.length ∧
      ((∀ b ∈ s, b.id ≠ r.id) → applyReplaced r s = s) ∧
      (∀ i (h1 : i < s.length) (h2 : i < (applyReplaced r s).length),
        (applyReplaced r s)[i] = if s[i].id = r.id then r else s[i]) := by
  refine ⟨by simp [applyReplaced], ?_, ?_⟩
  · intro habs
    simp only [applyReplaced]
    have hcong : ∀ b ∈ s, (if b.id == r.id then r else b) = id b := by
      intro b hb
      simp [beq_iff_eq, habs b hb]
    rw [List.map_congr_left hcong, List.map_id]
  · intro i h1 h2
    simp only [applyReplaced, List.getElem_map]
    by_cases h : s[i].id = r.id
    · simp [h]
    · simp [h]

theorem applyReplaced_spec_witness :
    (applyReplaced bk1v2 [bk3, bk1, bk2]).length = 3 ∧
      applyReplaced { bk1v2 with id := "9" } [bk3, bk1, bk2] = [bk3, bk1, bk2] ∧
      applyReplaced bk1v2 [bk3, bk1, bk2] = [bk3, bk1v2, bk2] :=
  ⟨(applyReplaced_spec bk1v2 [bk3, bk1, bk2]).1,
    (applyReplaced_spec { bk1v2 with id := "9" } [bk3, bk1, bk2]).2.1 (by decide),
    by decide⟩

/-- C8: applyRemoved removes every held record with the matching id, keeps
all other records in their original relative order, and on an absent id
leaves the snapshot exactly unchanged (silent no-op). -/
theorem applyRemoved_spec (oldId : String) (s : List Bookmark) :
    (applyRemoved oldId s).Sublist s ∧
      (∀ b ∈ applyRemoved oldId s, b.id ≠ oldId) ∧
      (∀ b ∈ s, b.id ≠ oldId → b ∈ applyRemoved oldId s) ∧
      ((∀ b ∈ s, b.id ≠ oldId) → applyRemoved oldId s = s) := by
  refine ⟨applyRemoved_sublist oldId s, ?_, ?_, ?_⟩
  · intro b hb
    have := List.of_mem_filter hb
    simpa [bne_iff_ne] using this
  · intro b hb hne
    refine List.mem_filter.mpr ⟨hb, ?_⟩
    simpa [bne_iff_ne] using hne
  · intro habs
    refine List.filter_eq_self.mpr ?_
    intro b hb
    simpa [bne_iff_ne] using habs b hb

theorem applyRemoved_spec_witness :
    (applyRemoved "2" [bk3, bk1, bk2]).Sublist [bk3, bk1, bk2] ∧
      applyRemoved "2" [bk3, bk1, bk2] = [bk3, bk1] ∧
      applyRemoved "9" [bk3, bk1, bk2] = [bk3, bk1, bk2] :=
  ⟨(applyRemoved_spec "2" [bk3, bk1, bk2]).1, by decide,
    (applyRemoved_spec "9" [bk3, bk1, bk2]).2.2.2 (by decide)⟩

/-- The component state of `BookmarkList.tsx` (lines 16-18): the held
bookmark sequence plus the loading flag and the error message (the empty
string plays the role of "no error", as in the source's truthiness test). -/
structure ListState where
  bookmarks : List Bookmark
  loading : Bool
  error : String
deriving DecidableEq

/-- `fetchBookmarks` (`BookmarkList.tsx` lines 22-48), the Reconciler's
bootstrap.  The authenticated user and the awaited query response are passed
in as parameters: `user` is `none` when `supabase.auth.getUser()` yields no
user, and `queryResult` is the `(data, error)` pair of the query — `.error`
when `fetchError` is set, otherwise `.ok data?` where `data?` is the possibly
null row list (`data || []` in the source). -/
def fetchBookmarks (user : Option String)
    (queryResult : Except String (Option (List Bookmark))) (s : ListState) : ListState :=
  let s1 : ListState := { s with loading := true, error := "" }
  match user with
  | none => { s1 with error := "Not authenticated", loading := false }
  | some _ =>
    match queryResult with
    | .error msg =>
      { s1 with error := "Failed to load bookmarks: " ++ msg, loading := false }
    | .ok data => { s1 with bookmarks := data.getD [], loading := false }

/-- The four mutually exclusive renderings of `BookmarkList.tsx`
(lines 114-179): the loading spinner, the error box (whose Retry button
re-invokes `fetchBookmarks`), the empty placeholder, and the bookmark list. -/
inductive View where
  | loadingView
  | errorView (msg : String)
  | emptyView
  | listView (bs : List Bookmark)
deriving DecidableEq

/-- View selection of `BookmarkList.tsx`: loading first, then a non-empty
error string, then the empty list, else the item list. -/
def render (s : ListState) : View :=
  if s.loading then View.loadingView
  else if s.error ≠ "" then View.errorView s.error
  else if s.bookmarks.isEmpty then View.emptyView
  else View.listView s.bookmarks

/-- The ordering used by the bootstrap query:
`.order(created_at, ascending false)` — newest (largest timestamp) first. -/
def byCreatedAtDesc (a b : Bookmark) : Prop := b.created_at ≤ a.created_at

instance : DecidableRel byCreatedAtDesc := fun a b => Nat.decLe b.created_at a.created_at

instance : IsTotal Bookmark byCreatedAtDesc :=
  ⟨fun a b => (Nat.le_total b.created_at a.created_at).imp id id⟩

instance : IsTrans Bookmark byCreatedAtDesc :=
  ⟨fun _ _ _ h1 h2 => Nat.le_trans h2 h1⟩

/-- The query issued by `fetchBookmarks` (`BookmarkList.tsx` lines 34-38):
all rows of the bookmarks table whose `user_id` equals the authenticated
user's id, ordered by `created_at` descending. -/
def listWhere (db : List Bookmark) (uid : String) : List Bookmark :=
  (db.filter (fun b => b.user_id == uid)).insertionSort byCreatedAtDesc

/-- C2: bootstrap with no identity fails with the Not-authenticated error and
bootstrap whose query errors fails with the Failed-to-load error carrying the
upstream message; in both cases the previously held sequence is unchanged and
the failure is rendered as the error view (whose Retry button re-invokes
fetchBookmarks). -/
theorem bootstrap_failure_spec (s : ListState) (msg : String)
    (queryResult : Except String (Option (List Bookmark))) :
    ((fetchBookmarks none queryResult s).bookmarks = s.bookmarks ∧
      (fetchBookmarks none queryResult s).error = "Not authenticated" ∧
      render (fetchBookmarks none queryResult s) = View.errorView "Not authenticated") ∧
    (∀ uid : String,
      (fetchBookmarks (some uid) (Except.error msg) s).bookmarks = s.bookmarks ∧
      (fetchBookmarks (some uid) (Except.error msg) s).error
          = "Failed to load bookmarks: " ++ msg ∧
      render (fetchBookmarks (some uid) (Except.error msg) s)
          = View.errorView ("Failed to load bookmarks: " ++ msg)) := by
  constructor
  · refine ⟨rfl, rfl, ?_⟩
    simp [render, fetchBookmarks]
  · intro uid
    refine ⟨rfl, rfl, ?_⟩
    simp only [render, fetchBookmarks]
    rw [if_neg (by simp), if_pos]
    intro hc
    have hlen := congrArg String.length hc
    rw [String.length_append] at hlen
    have h26 : ("Failed to load bookmarks: " : String).length = 26 := by decide
    have h0 : ("" : String).length = 0 := by decide
    rw [h26, h0] at hlen
    omega

theorem bootstrap_failure_spec_witness :
    (fetchBookmarks none (Except.ok (some [bk3])) { bookmarks := [bk1, bk2], loading := false, error := "" }).bookmarks = [bk1, bk2] ∧
      render (fetchBookmarks (some "u1") (Except.error "boom") { bookmarks := [bk1, bk2], loading := false, error := "" })
        = View.errorView "Failed to load bookmarks: boom" :=
  ⟨(bootstrap_failure_spec { bookmarks := [bk1, bk2], loading := false, error := "" } "boom" (Except.ok (some [bk3]))).1.1,
    ((bootstrap_failure_spec { bookmarks := [bk1, bk2], loading := false, error := "" } "boom" (Except.ok (some [bk3]))).2 "u1").2.2⟩

/-- C9: on success, bootstrap replaces the entire held sequence — whatever it
previously was — with the result of the single query scoped to the owner and
ordered by created_at descending: the new snapshot equals the query result in
that order, every record in it belongs to the owner, it is sorted newest
first, and it contains exactly the owner's rows of the table. -/
theorem bootstrap_success_spec (uid : String) (db : List Bookmark) (s : ListState) :
    (fetchBookmarks (some uid) (Except.ok (some (listWhere db uid))) s).bookmarks
        = listWhere db uid ∧
      (∀ b ∈ listWhere db uid, b.user_id = uid) ∧
      (listWhere db uid).Sorted byCreatedAtDesc ∧
      (listWhere db uid).Perm (db.filter (fun b => b.user_id == uid)) := by
  refine ⟨rfl, ?_, ?_, ?_⟩
  · intro b hb
    have hmem : b ∈ db.filter (fun b => b.user_id == uid) :=
      (List.perm_insertionSort byCreatedAtDesc _).mem_iff.mp hb
    have := List.of_mem_filter hmem
    simpa [beq_iff_eq] using this
  · exact List.sorted_insertionSort byCreatedAtDesc _
  · exact List.perm_insertionSort byCreatedAtDesc _

theorem bootstrap_success_spec_witness :
    (fetchBookmarks (some "u1") (Except.ok (some (listWhere [bk3, bk1, bk2] "u1")))
        { bookmarks := [bk1v2], loading := false, error := "old" }).bookmarks
      = [bk1, bk2, bk3] ∧ bk1.user_id = "u1" :=
  ⟨by
    rw [(bootstrap_success_spec "u1" [bk3, bk1, bk2]
      { bookmarks := [bk1v2], loading := false, error := "old" }).1]
    decide,
    (bootstrap_success_spec "u1" [bk3, bk1, bk2]
      { bookmarks := [bk1v2], loading := false, error := "old" }).2.1 bk1 (by decide)⟩

/-- State of the subscription lifecycle of the mounting effect of
`BookmarkList.tsx` (lines 50-112): `channelRef` models the captured
`let channel` variable that the `.then` continuation assigns, `established`
counts channel subscriptions created upstream, and `releases` counts the
`supabase.removeChannel` calls made by the effect cleanup. -/
structure SubLifecycleState where
  channelRef : Option Unit
  established : Nat
  releases : Nat
deriving DecidableEq

/-- The externally observable steps of the effect lifecycle:
`resolveWithUser` — `setupRealtimeSubscription`'s promise resolves with a
user present, so a channel was created and subscribed and the `.then`
continuation assigns it to `channel`; `resolveNoUser` — the promise resolves
with no user (the function returned early, `channel` stays undefined);
`cleanup` — the effect cleanup runs (`if (channel) removeChannel(channel)`). -/
inductive LifecycleEvent where
  | resolveWithUser
  | resolveNoUser
  | cleanup
deriving DecidableEq

/-- One lifecycle step, translated from `BookmarkList.tsx` lines 100-111. -/
def stepLifecycle (s : SubLifecycleState) : LifecycleEvent → SubLifecycleState
  | .resolveWithUser => { s with channelRef := some (), established := s.established + 1 }
  | .resolveNoUser => s
  | .cleanup =>
    match s.channelRef with
    | some _ => { s with releases := s.releases + 1 }
    | none => s

/-- Run a lifecycle trace from the initial state of a freshly mounted view
(`channel` unassigned, nothing established, nothing released). -/
def runLifecycle (es : List LifecycleEvent) : SubLifecycleState :=
  es.foldl stepLifecycle { channelRef := none, established := 0, releases := 0 }

def isCleanup : LifecycleEvent → Bool
  | .cleanup => true
  | _ => false

/-- A teardown trace of one mounted view: React runs the effect cleanup
exactly once on unmount, and the establishment promise resolves at most once
— before or after the cleanup, since the promise is not awaited by the
effect. -/
def validTeardownTrace (es : List LifecycleEvent) : Prop :=
  es.countP isCleanup = 1 ∧ es.countP (fun e => !(isCleanup e)) ≤ 1

theorem lifecycle_countP_split (es : List LifecycleEvent) :
    es.length = es.countP isCleanup + es.countP (fun e => !(isCleanup e)) := by
  induction es with
  | nil => rfl
  | cons e es ih =>
    cases he : isCleanup e <;> simp [List.countP_cons, he, ih] <;> omega

/-- C3 counterexample: on the teardown trace where the view unmounts while
the subscription is still being established (cleanup runs first, the promise
resolves afterwards), a subscription becomes established but is never
released — the claim's "released exactly once on every teardown in which a
subscription was or becomes established" fails. -/
theorem teardown_release_cex :
    validTeardownTrace [LifecycleEvent.cleanup, LifecycleEvent.resolveWithUser] ∧
      (runLifecycle [LifecycleEvent.cleanup, LifecycleEvent.resolveWithUser]).established = 1 ∧
      (runLifecycle [LifecycleEvent.cleanup, LifecycleEvent.resolveWithUser]).releases = 0 := by
  refine ⟨⟨?_, ?_⟩, ?_, ?_⟩ <;> decide

/-- C3 (amended): across all valid teardown traces, the cleanup releases the
subscription exactly once precisely when establishment completed before the
cleanup ran; in every other case — never established, establishment resolved
without a user, or establishment completing only after the cleanup — nothing
is released, and running the cleanup with an unassigned channel reference is
a safe no-op on the state. -/
theorem teardown_release_amended (es : List LifecycleEvent)
    (h : validTeardownTrace es) :
    ((runLifecycle es).releases =
        if es = [LifecycleEvent.resolveWithUser, LifecycleEvent.cleanup] then 1 else 0) ∧
      (∀ n m : Nat,
        stepLifecycle { channelRef := none, established := n, releases := m }
            LifecycleEvent.cleanup
          = { channelRef := none, established := n, releases := m }) := by
  obtain ⟨h1, h2⟩ := h
  refine ⟨?_, fun n m => rfl⟩
  have hsplit := lifecycle_countP_split es
  have hlen : es.length ≤ 2 := by omega
  rcases es with _ | ⟨a, _ | ⟨b, _ | ⟨c, rest⟩⟩⟩
  · revert h1
    decide
  · cases a <;> (revert h1 h2; decide)
  · cases a <;> cases b <;> (revert h1 h2; decide)
  · simp only [List.length_cons] at hlen
    omega

theorem teardown_release_amended_witness :
    validTeardownTrace [LifecycleEvent.resolveWithUser, LifecycleEvent.cleanup] ∧
      (runLifecycle [LifecycleEvent.resolveWithUser, LifecycleEvent.cleanup]).releases = 1 :=
  ⟨⟨by decide, by decide⟩, by
    rw [(teardown_release_amended [LifecycleEvent.resolveWithUser, LifecycleEvent.cleanup]
      ⟨by decide, by decide⟩).1]
    decide⟩

/-- Local state of `AddBookmarkForm.tsx` (lines 11-14). -/
structure AddFormState where
  title : String
  url : String
  loading : Bool
  error : String
deriving DecidableEq

/-- `handleSubmit` of `AddBookmarkForm.tsx` (lines 18-63), with the
Reconciler's view state threaded through to record its effect on the held
sequence.  `urlValid` is the outcome of the `new URL(url)` check, `user` the
authenticated user, `insertResult` the database insert response.  On success
the form is cleared and `onBookmarkAdded` is invoked, which is the empty
arrow function bound in `app/dashboard/page.tsx` line 199 — the view state
is never written on any path. -/
def handleSubmit (urlValid : Bool) (user : Option String)
    (insertResult : Except String Unit) (f : AddFormState) (view : ListState) :
    AddFormState × ListState :=
  let f0 : AddFormState := { f with error := "", loading := true }
  if !urlValid then ({ f0 with error := "Please enter a valid URL", loading := false }, view)
  else
    match user with
    | none => ({ f0 with error := "You must be logged in", loading := false }, view)
    | some _ =>
      match insertResult with
      | .error msg =>
        ({ f0 with error := "Failed to add bookmark: " ++ msg, loading := false }, view)
      | .ok _ => ({ title := "", url := "", loading := false, error := "" }, view)

/-- Local state of `BookmarkItem.tsx` (lines 19-24). -/
structure ItemState where
  isEditing : Bool
  editTitle : String
  editUrl : String
  saving : Bool
  deleting : Bool
  error : String
deriving DecidableEq

/-- `handleSaveEdit` of `BookmarkItem.tsx` (lines 42-77), with the
Reconciler's view state threaded through.  After a successful update the
source only clears the local flags ("Real-time will handle the UI update")
— the view state is never written on any path. -/
def handleSaveEdit (urlValid : Bool) (updateResult : Except String Unit)
    (it : ItemState) (view : ListState) : ItemState × ListState :=
  if it.editTitle.trim.isEmpty || it.editUrl.trim.isEmpty then
    ({ it with error := "Title and URL are required" }, view)
  else if !urlValid then ({ it with error := "Please enter a valid URL" }, view)
  else
    let it0 : ItemState := { it with saving := true, error := "" }
    match updateResult with
    | .error _ => ({ it0 with error := "Failed to update bookmark", saving := false }, view)
    | .ok _ => ({ it0 with saving := false, isEditing := false }, view)

/-- `handleDelete` of `BookmarkItem.tsx` (lines 79-99) composed with the
`onDeleted` callback it invokes on success, which `BookmarkList.tsx`
line 175 binds to `fetchBookmarks`: a confirmed, successful delete re-runs
the bootstrap (with the then-current user and query response) on the view
state. -/
def handleDelete (confirmed : Bool) (deleteResult : Except String Unit)
    (user : Option String) (queryResult : Except String (Option (List Bookmark)))
    (it : ItemState) (view : ListState) : ItemState × ListState :=
  if !confirmed then (it, view)
  else
    match deleteResult with
    | .error _ => ({ it with deleting := false }, view)
    | .ok _ => ({ it with deleting := true }, fetchBookmarks user queryResult view)

/-- C4 counterexample: a confirmed, successful delete changes the
Reconciler's held sequence directly — through the onDeleted-bound
fetchBookmarks — without any applyAdded/applyReplaced/applyRemoved feed
event being applied, refuting "the held sequence changes only via
applyAdded/applyReplaced/applyRemoved events delivered by the change
feed". -/
theorem mutation_entry_cex :
    (handleDelete true (Except.ok ()) (some "u1") (Except.ok (some []))
        { isEditing := false, editTitle := "A", editUrl := "https://a.example",
          saving := false, deleting := true, error := "" }
        { bookmarks := [bk1], loading := false, error := "" }).2.bookmarks = [] ∧
      ([] : List Bookmark) ≠ [bk1] := by
  refine ⟨?_, ?_⟩ <;> decide

/-- C4 (amended): the add and edit entry points never write the Reconciler's
held sequence on any path — their user-initiated changes reach it only via
the change feed — and the delete entry point leaves it unchanged when the
confirmation is declined or the database delete fails; but a confirmed,
successful delete additionally invokes bootstrap (fetchBookmarks) through
its onDeleted callback, replacing the held sequence with a fresh query
result rather than leaving the change to the feed's Removed event. -/
theorem mutation_entry_amended (urlValid confirmed : Bool) (user : Option String)
    (insertResult updateResult deleteResult : Except String Unit)
    (queryResult : Except String (Option (List Bookmark)))
    (f : AddFormState) (it : ItemState) (view : ListState) :
    (handleSubmit urlValid user insertResult f view).2 = view ∧
      (handleSaveEdit urlValid updateResult it view).2 = view ∧
      (confirmed = false → (handleDelete confirmed deleteResult user queryResult it view).2 = view) ∧
      (∀ msg, (handleDelete true (Except.error msg) user queryResult it view).2 = view) ∧
      (handleDelete true (Except.ok ()) user queryResult it view).2
        = fetchBookmarks user queryResult view := by
  refine ⟨?_, ?_, ?_, ?_, rfl⟩
  · simp only [handleSubmit]
    cases urlValid
    · rfl
    · cases user
      · rfl
      · cases insertResult <;> rfl
  · simp only [handleSaveEdit]
    by_cases h : it.editTitle.trim.isEmpty || it.editUrl.trim.isEmpty
    · simp [h]
    · cases urlValid
      · simp [h]
      · cases updateResult <;> simp [h]
  · intro hc
    subst hc
    rfl
  · intro msg
    rfl

theorem mutation_entry_amended_witness :
    (handleSubmit true (some "u1") (Except.ok ())
        { title := "A", url := "https://a.example", loading := false, error := "" }
        { bookmarks := [bk1], loading := false, error := "" }).2
      = { bookmarks := [bk1], loading := false, error := "" } ∧
    (handleDelete false (Except.ok ()) (some "u1") (Except.ok (some []))
        { isEditing := false, editTitle := "A", editUrl := "https://a.example",
          saving := false, deleting := false, error := "" }
        { bookmarks := [bk1], loading := false, error := "" }).2
      = { bookmarks := [bk1], loading := false, error := "" } :=
  ⟨(mutation_entry_amended true false (some "u1") (Except.ok ()) (Except.ok ())
      (Except.ok ()) (Except.ok (some []))
      { title := "A", url := "https://a.example", loading := false, error := "" }
      { isEditing := false, editTitle := "A", editUrl := "https://a.example",
        saving := false, deleting := false, error := "" }
      { bookmarks := [bk1], loading := false, error := "" }).1,
    (mutation_entry_amended true false (some "u1") (Except.ok ()) (Except.ok ())
      (Except.ok ()) (Except.ok (some []))
      { title := "A", url := "https://a.example", loading := false, error := "" }
      { isEditing := false, editTitle := "A", editUrl := "https://a.example",
        saving := false, deleting := false, error := "" }
      { bookmarks := [bk1], loading := false, error := "" }).2.2.1 rfl⟩
